import Mathlib

/-!
Shallow embedding of the aqua-guard-raspi-client edge controller.

The development models the three pieces of real decision logic in the
repository:

* the rule evaluation engine `evaluateRules` (src/unnamed/part_000,
  `evaluateRules`), which maps a sensor snapshot and a device
  configuration to an ordered action list;
* the authenticated synchronization client (src/piClient.js,
  `fetchAuthToken`, `refreshAccessToken`, `sendToServer`,
  `sendSensorData`), which performs login, token refresh, a
  retry-on-401 protocol and primary/backup failover;
* the actuator dispatcher `controlActuators` (src/piClient.js), which
  writes boolean commands to a fixed registry of relays.

JavaScript numbers that take part in threshold comparisons are modelled
as rationals; a missing (undefined) numeric field is `Option.none`, and
the JS semantics that `undefined < x` and `undefined > x` are both false
is captured by `jlt` and `jgt`.  Network and hardware effects are
modelled by explicit environments: an `Env` gives the outcome of the
n-th login, refresh and sensor-data POST issued by a call, and a
failure predicate on positions models actuator writes that throw.
The rationale `message` strings attached to actions are log-only and
are not modelled.  The recursive retry in `sendToServer` is modelled
with explicit fuel; a result of `none` means the recursion was still
running when the fuel ran out.
-/

namespace AquaGuard

/-! ## Rule engine data model (src/unnamed/part_000) -/

/-- An actuator command as produced by `evaluateRules` and consumed by
`controlActuators`: the actuator id string and the boolean command. -/
structure Action where
  actuator : String
  command : Bool
deriving DecidableEq

/-- JS comparison `x < y` where `x` may be `undefined`: an undefined
operand makes the comparison false. -/
def jlt (x : Option ℚ) (y : ℚ) : Bool :=
  match x with
  | some v => decide (v < y)
  | none => false

/-- JS comparison `x > y` where `x` may be `undefined`: an undefined
operand makes the comparison false. -/
def jgt (x : Option ℚ) (y : ℚ) : Bool :=
  match x with
  | some v => decide (v > y)
  | none => false

/-- The sensor snapshot consumed by `evaluateRules`.  Numeric fields are
optional because the JS object may omit them. -/
structure SensorData where
  pH : Option ℚ
  chlorineLevel : Option ℚ
  turbidity : Option ℚ
  waterLevel : Option ℚ
  temperature : Option ℚ
  weatherForecast : Option String
  poolBeingCleaned : Bool
deriving DecidableEq

/-- The `device.poolInfo` configuration object. -/
structure PoolInfo where
  minWaterLevel : ℚ
  maxWaterLevel : ℚ
  desiredTemperature : ℚ
deriving DecidableEq

/-- The `device` argument of `evaluateRules`. -/
structure Device where
  poolInfo : PoolInfo
deriving DecidableEq

/-- Rule 1 of `evaluateRules`: pH adjustment. -/
def rule1 (s : SensorData) : List Action :=
  if jlt s.pH 7.2 then [⟨"chlorinePump", true⟩]
  else if jgt s.pH 7.8 then [⟨"chlorinePump", false⟩]
  else []

/-- Rule 2 of `evaluateRules`: chlorine level adjustment. -/
def rule2 (s : SensorData) : List Action :=
  if jlt s.chlorineLevel 1 then [⟨"chlorinePump", true⟩]
  else if jgt s.chlorineLevel 3 then [⟨"chlorinePump", false⟩]
  else []

/-- Rule 3 of `evaluateRules`: turbidity, filtration and vacuum. -/
def rule3 (s : SensorData) : List Action :=
  if jgt s.turbidity 50 then [⟨"poolFilter", true⟩, ⟨"poolVacuum", true⟩]
  else []

/-- Rule 4 of `evaluateRules`: water level adjustment. -/
def rule4 (s : SensorData) (d : Device) : List Action :=
  if jlt s.waterLevel d.poolInfo.minWaterLevel then [⟨"waterFillPump", true⟩]
  else if jgt s.waterLevel d.poolInfo.maxWaterLevel then [⟨"waterDrainPump", true⟩]
  else []

/-- Rule 5 of `evaluateRules`: temperature regulation. -/
def rule5 (s : SensorData) (d : Device) : List Action :=
  if jlt s.temperature d.poolInfo.desiredTemperature then [⟨"poolHeater", true⟩]
  else if jgt s.temperature (d.poolInfo.desiredTemperature + 2) then [⟨"poolHeater", false⟩]
  else []

/-- The night test computed inside `evaluateRules` from
`new Date().getHours()`; the hour is an input of the model because the
clock read is the only impurity of the JS function. -/
def isNight (currentTime : ℕ) : Bool :=
  currentTime ≥ 18 || currentTime ≤ 6

/-- Rule 6 of `evaluateRules`: pool cover; always emits one action. -/
def rule6 (s : SensorData) (currentTime : ℕ) : List Action :=
  if isNight currentTime || s.weatherForecast == some "rainy" || jlt s.temperature 15 then
    [⟨"poolCover", true⟩]
  else
    [⟨"poolCover", false⟩]

/-- Rule 7 of `evaluateRules`: LED lights. -/
def rule7 (s : SensorData) (currentTime : ℕ) : List Action :=
  if isNight currentTime || s.poolBeingCleaned then [⟨"ledLights", true⟩]
  else []

/-- `evaluateRules(sensorData, device)` from src/unnamed/part_000.  The
source pushes actions into one array while evaluating rules 1 to 7 in
order; the result is the concatenation of the per-rule segments.
`currentTime` stands for the `new Date().getHours()` value read inside
the JS function body. -/
def evaluateRules (s : SensorData) (d : Device) (currentTime : ℕ) : List Action :=
  rule1 s ++ rule2 s ++ rule3 s ++ rule4 s d ++ rule5 s d ++
    rule6 s currentTime ++ rule7 s currentTime

/-! ## Synchronization client (src/piClient.js) -/

/-- The in-memory token storage: the module-level `accessToken` and
`refreshToken` variables. -/
structure Session where
  accessToken : Option String
  refreshToken : Option String
deriving DecidableEq

/-- The body of a successful sensor-data response; `actions` is the
optional `actions` field of `response.data`. -/
structure ServerData where
  actions : Option (List Action)
deriving DecidableEq

/-- Outcome of one sensor-data POST: success with a body, a 401
rejection, or any other failure. -/
inductive PostResult where
  | ok (data : ServerData)
  | err401
  | errOther
deriving DecidableEq

/-- How many login, refresh and sensor-data requests a call has made so
far; used both to index the environment and to count network attempts. -/
structure Counts where
  logins : ℕ
  refreshes : ℕ
  posts : ℕ
deriving DecidableEq

/-- The remote environment seen by one client call: the outcome of the
n-th login request, of the n-th refresh request, and of the n-th
sensor-data POST. -/
structure Env where
  login : ℕ → Option (String × String)
  refresh : ℕ → Option String
  post : ℕ → PostResult

/-- `fetchAuthToken` from src/piClient.js: on success both tokens are
replaced by the response values; on failure `accessToken` is set to
null and `refreshToken` is left as it was. -/
def fetchAuthToken (env : Env) (s : Session) (k : Counts) : Session × Counts :=
  match env.login k.logins with
  | some (a, r) => (⟨some a, some r⟩, { k with logins := k.logins + 1 })
  | none => ({ s with accessToken := none }, { k with logins := k.logins + 1 })

/-- `refreshAccessToken` from src/piClient.js: on success `accessToken`
is replaced; on failure `accessToken` is set to null.  In both branches
`refreshToken` is left untouched. -/
def refreshAccessToken (env : Env) (s : Session) (k : Counts) : Session × Counts :=
  match env.refresh k.refreshes with
  | some a => ({ s with accessToken := some a }, { k with refreshes := k.refreshes + 1 })
  | none => ({ s with accessToken := none }, { k with refreshes := k.refreshes + 1 })

/-- Result of one `sendToServer` call: `result = none` means the fuel
ran out while the JS recursion was still going; `result = some none`
is the JS function returning null; `result = some (some d)` is a
successful return of the response body. -/
structure SendOut where
  result : Option (Option ServerData)
  session : Session
  counts : Counts
deriving DecidableEq

/-- `sendToServer(sensorData, serverUrl)` from src/piClient.js.  If no
access token is held, a login is attempted first and a still-missing
token aborts with null.  Then the sensor-data POST is issued: success
returns the body, a 401 triggers `refreshAccessToken` followed — when
the refresh produced a token — by a full recursive call to
`sendToServer`, and every other failure (or a failed refresh) returns
null.  The recursion carries no attempt counter in the source; the
`fuel` argument makes it total in the model. -/
def sendToServer : ℕ → Env → Session → Counts → SendOut
  | 0, _, s, k => ⟨none, s, k⟩
  | fuel + 1, env, s, k =>
    let sk1 :=
      match s.accessToken with
      | some _ => (s, k)
      | none => fetchAuthToken env s k
    match sk1.1.accessToken with
    | none => ⟨some none, sk1.1, sk1.2⟩
    | some _ =>
      match env.post sk1.2.posts with
      | .ok d => ⟨some (some d), sk1.1, { sk1.2 with posts := sk1.2.posts + 1 }⟩
      | .errOther => ⟨some none, sk1.1, { sk1.2 with posts := sk1.2.posts + 1 }⟩
      | .err401 =>
        let sk2 := refreshAccessToken env sk1.1 { sk1.2 with posts := sk1.2.posts + 1 }
        match sk2.1.accessToken with
        | some _ => sendToServer fuel env sk2.1 sk2.2
        | none => ⟨some none, sk2.1, sk2.2⟩

/-- Zero request counters, the state at the start of a call. -/
def counts0 : Counts := ⟨0, 0, 0⟩

/-- Observable outcome of the remote half of one `sendSensorData` tick:
the final response, the action list handed to `controlActuators`
(`none` when the dispatch was skipped), the resulting session, and the
number of sensor-data POSTs made against each endpoint. -/
structure TickOut where
  response : Option (Option ServerData)
  dispatched : Option (List Action)
  session : Session
  primaryPosts : ℕ
  backupPosts : ℕ
deriving DecidableEq

/-- The remote portion of `sendSensorData` from src/piClient.js: send to
the primary server, on a null result send to the backup server, and
dispatch `serverResponse.actions` only when a response arrived and the
`actions` field is present. -/
def sendSensorData (fuel : ℕ) (envP envB : Env) (s : Session) : TickOut :=
  let o1 := sendToServer fuel envP s counts0
  match o1.result with
  | none => ⟨none, none, o1.session, o1.counts.posts, 0⟩
  | some (some d) => ⟨some (some d), d.actions, o1.session, o1.counts.posts, 0⟩
  | some none =>
    let o2 := sendToServer fuel envB o1.session counts0
    match o2.result with
    | none => ⟨none, none, o2.session, o1.counts.posts, o2.counts.posts⟩
    | some (some d) => ⟨some (some d), d.actions, o2.session, o1.counts.posts, o2.counts.posts⟩
    | some none => ⟨some none, none, o2.session, o1.counts.posts, o2.counts.posts⟩

/-! ## Actuator dispatcher (src/piClient.js, `controlActuators`) -/

/-- The four relay objects held by the client process. -/
inductive Relay where
  | relayWaterIn
  | relayWaterOut
  | relayChlorinePump
  | relayFilterHead
deriving DecidableEq

/-- The switch statement of `controlActuators`: the fixed registry from
actuator id strings to relays; ids with no case produce no write. -/
def relayOf (name : String) : Option Relay :=
  if name = "waterFillPump" then some .relayWaterIn
  else if name = "waterDrainPump" then some .relayWaterOut
  else if name = "chlorinePump" then some .relayChlorinePump
  else if name = "filterMotor" then some .relayFilterHead
  else none

/-- One relay write that actually happened: the relay and the level. -/
structure RelayWrite where
  relay : Relay
  value : Bool
deriving DecidableEq

/-- Processing of one action at position `i` of the list: a registered
actuator is written unless the write throws (`fail i`), and the
try/catch swallows the throw; an unregistered actuator id matches no
switch case and nothing is written. -/
def tryWrite (fail : ℕ → Bool) (i : ℕ) (a : Action) : List RelayWrite :=
  match relayOf a.actuator with
  | some r => if fail i then [] else [⟨r, a.command⟩]
  | none => []

/-- The `forEach` of `controlActuators` starting at position `i`: the
trace of relay writes that were performed, in order. -/
def controlActuatorsFrom (fail : ℕ → Bool) : ℕ → List Action → List RelayWrite
  | _, [] => []
  | i, a :: rest => tryWrite fail i a ++ controlActuatorsFrom fail (i + 1) rest

/-- `controlActuators(actions)` from src/piClient.js, as the trace of
the relay writes it performs. -/
def controlActuators (fail : ℕ → Bool) (actions : List Action) : List RelayWrite :=
  controlActuatorsFrom fail 0 actions

/-! ## Concrete fixtures -/

/-- The end-to-end scenario snapshot of the specification. -/
def snapC5 : SensorData :=
  { pH := some 7, chlorineLevel := some 2, turbidity := some 10, waterLevel := some 50,
    temperature := some 28, weatherForecast := some "sunny", poolBeingCleaned := false }

/-- Snapshot with pH in the dead band of rule 1. -/
def snapMid : SensorData :=
  { snapC5 with pH := some 7.5 }

/-- Snapshot with the pH field missing. -/
def snapNoPH : SensorData :=
  { snapC5 with pH := none }

/-- Snapshot firing rule 1 ON and rule 2 OFF at once. -/
def snapConflict : SensorData :=
  { snapC5 with pH := some 7, chlorineLevel := some 4 }

/-- The `poolInfo` configuration used by the client. -/
def devCfg : Device := ⟨⟨30, 80, 28⟩⟩

/-- A session already holding both tokens. -/
def sess0 : Session := ⟨some "tokenA", some "tokenR"⟩

/-- A server that answers 401 to every sensor-data POST while the
refresh endpoint keeps handing out fresh access tokens. -/
def env401 : Env := ⟨fun _ => none, fun _ => some "tokenB", fun _ => .err401⟩

/-- A server whose refresh endpoint always fails. -/
def envRefreshFail : Env := ⟨fun _ => none, fun _ => none, fun _ => .err401⟩

/-- An endpoint that fails every sensor-data POST with a non-401 error. -/
def envOther : Env := ⟨fun _ => none, fun _ => none, fun _ => .errOther⟩

/-- An endpoint that accepts the POST and returns one action. -/
def envOk : Env := ⟨fun _ => none, fun _ => none, fun _ => .ok ⟨some [⟨"chlorinePump", true⟩]⟩⟩

/-! ## Rule engine: filter helper lemmas -/

/-- Rule 1 never emits a poolCover action. -/
theorem filter_poolCover_rule1 (s : SensorData) :
    (rule1 s).filter (fun a => a.actuator == "poolCover") = [] := by
  unfold rule1; split
  · decide
  · split <;> decide

/-- Rule 2 never emits a poolCover action. -/
theorem filter_poolCover_rule2 (s : SensorData) :
    (rule2 s).filter (fun a => a.actuator == "poolCover") = [] := by
  unfold rule2; split
  · decide
  · split <;> decide

/-- Rule 3 never emits a poolCover action. -/
theorem filter_poolCover_rule3 (s : SensorData) :
    (rule3 s).filter (fun a => a.actuator == "poolCover") = [] := by
  unfold rule3; split <;> decide

/-- Rule 4 never emits a poolCover action. -/
theorem filter_poolCover_rule4 (s : SensorData) (d : Device) :
    (rule4 s d).filter (fun a => a.actuator == "poolCover") = [] := by
  unfold rule4; split
  · decide
  · split <;> decide

/-- Rule 5 never emits a poolCover action. -/
theorem filter_poolCover_rule5 (s : SensorData) (d : Device) :
    (rule5 s d).filter (fun a => a.actuator == "poolCover") = [] := by
  unfold rule5; split
  · decide
  · split <;> decide

/-- Rule 6 emits exactly one poolCover action whose command is its
night/weather/temperature condition. -/
theorem filter_poolCover_rule6 (s : SensorData) (hr : ℕ) :
    (rule6 s hr).filter (fun a => a.actuator == "poolCover")
      = [⟨"poolCover", isNight hr || s.weatherForecast == some "rainy" || jlt s.temperature 15⟩] := by
  unfold rule6
  cases hb : isNight hr || s.weatherForecast == some "rainy" || jlt s.temperature 15 <;>
    simp_all

/-- Rule 7 never emits a poolCover action. -/
theorem filter_poolCover_rule7 (s : SensorData) (hr : ℕ) :
    (rule7 s hr).filter (fun a => a.actuator == "poolCover") = [] := by
  unfold rule7; split <;> decide

/-! ## Claim theorems: rule engine -/

/-- Claim C4 counterexample: the code reads the hour from the system
clock inside `evaluateRules` (`new Date().getHours()`), so two calls
with identical snapshot and config arguments made at different
wall-clock hours can return different lists; the hour is hidden state,
not an explicit argument of the JS function. -/
theorem evaluateRules_clock_dependence :
    evaluateRules snapC5 devCfg 12 ≠ evaluateRules snapC5 devCfg 20 := by
  norm_num [evaluateRules, rule1, rule2, rule3, rule4, rule5, rule6, rule7,
    jlt, jgt, isNight, snapC5, devCfg]
  decide

/-- Claim C4 amended: rule evaluation is deterministic in the snapshot,
the config and the clock hour: two calls with identical snapshot,
config and observed wall-clock hour return list-equal outputs, the
hour being the only ambient input of the JS function. -/
theorem evaluateRules_deterministic (s s2 : SensorData) (d d2 : Device) (h h2 : ℕ)
    (hs : s = s2) (hd : d = d2) (hh : h = h2) :
    evaluateRules s d h = evaluateRules s2 d2 h2 := by
  rw [hs, hd, hh]

/-- Witness for the amended C4 determinism statement at the concrete
end-to-end scenario input. -/
theorem evaluateRules_deterministic_witness :
    evaluateRules snapC5 devCfg 12 = evaluateRules snapC5 devCfg 12 :=
  evaluateRules_deterministic snapC5 snapC5 devCfg devCfg 12 12 rfl rfl rfl

/-- Claim C5: on the end-to-end scenario snapshot, config and hour 12,
`evaluateRules` returns exactly the chlorine-pump ON action followed by
the pool-cover OFF action. -/
theorem evaluateRules_scenario :
    evaluateRules snapC5 devCfg 12 = [⟨"chlorinePump", true⟩, ⟨"poolCover", false⟩] := by
  norm_num [evaluateRules, rule1, rule2, rule3, rule4, rule5, rule6, rule7,
    jlt, jgt, isNight, snapC5, devCfg]
  decide

/-- Claim C6: a snapshot with pH below 7.2 makes rule 1 emit exactly
the chlorine-pump ON action, which therefore appears in the
`evaluateRules` output whatever the other fields; pH inside the
7.2 to 7.8 band makes rule 1 emit nothing; a missing pH field fails
both threshold comparisons and rule 1 emits nothing. -/
theorem rule1_pH_behaviour (s : SensorData) (d : Device) (hr : ℕ) :
    (∀ v, s.pH = some v → v < 7.2 → rule1 s = [⟨"chlorinePump", true⟩] ∧
      Action.mk "chlorinePump" true ∈ evaluateRules s d hr)
  ∧ (∀ v, s.pH = some v → 7.2 ≤ v → v ≤ 7.8 → rule1 s = [])
  ∧ (s.pH = none → rule1 s = []) := by
  refine ⟨?_, ?_, ?_⟩
  · intro v hv hlt
    have h1 : rule1 s = [⟨"chlorinePump", true⟩] := by
      simp [rule1, jlt, hv, hlt]
    refine ⟨h1, ?_⟩
    simp [evaluateRules, h1]
  · intro v hv hge hle
    simp [rule1, jlt, jgt, hv, not_lt.mpr hge, not_lt.mpr hle]
  · intro hv
    simp [rule1, jlt, jgt, hv]

/-- Witness for C6 at concrete snapshots: pH 7.0 fires the ON action,
pH 7.5 fires nothing, a missing pH fires nothing. -/
theorem rule1_pH_behaviour_witness :
    (rule1 snapC5 = [⟨"chlorinePump", true⟩] ∧
      Action.mk "chlorinePump" true ∈ evaluateRules snapC5 devCfg 12)
  ∧ rule1 snapMid = [] ∧ rule1 snapNoPH = [] :=
  ⟨(rule1_pH_behaviour snapC5 devCfg 12).1 7 rfl (by norm_num),
   (rule1_pH_behaviour snapMid devCfg 12).2.1 7.5 rfl (by norm_num) (by norm_num),
   (rule1_pH_behaviour snapNoPH devCfg 12).2.2 rfl⟩

/-- Claim C7: the hours 18 and 6 classify as night and 12 does not, and
for every snapshot, config and hour the `evaluateRules` output contains
exactly one poolCover action, ON precisely when it is night or the
forecast is rainy or the temperature is below 15. -/
theorem evaluateRules_poolCover_exactly_one :
    (isNight 18 = true ∧ isNight 6 = true ∧ isNight 12 = false)
  ∧ ∀ (s : SensorData) (d : Device) (hr : ℕ),
      (evaluateRules s d hr).filter (fun a => a.actuator == "poolCover")
        = [⟨"poolCover", isNight hr || s.weatherForecast == some "rainy" || jlt s.temperature 15⟩] := by
  refine ⟨⟨by decide, by decide, by decide⟩, ?_⟩
  intro s d hr
  simp only [evaluateRules, List.filter_append, filter_poolCover_rule1, filter_poolCover_rule2,
    filter_poolCover_rule3, filter_poolCover_rule4, filter_poolCover_rule5,
    filter_poolCover_rule6, filter_poolCover_rule7, List.nil_append, List.append_nil]

/-- Claim C8: when rule 1 and rule 2 both fire a chlorinePump action,
the output keeps both, the rule-1 entry first, immediately followed by
the rule-2 entry and then the remaining rules' actions. -/
theorem evaluateRules_conflicting_chlorine (s : SensorData) (d : Device) (hr : ℕ) (b1 b2 : Bool)
    (h1 : rule1 s = [⟨"chlorinePump", b1⟩]) (h2 : rule2 s = [⟨"chlorinePump", b2⟩]) :
    evaluateRules s d hr =
      ⟨"chlorinePump", b1⟩ :: ⟨"chlorinePump", b2⟩ ::
        (rule3 s ++ rule4 s d ++ rule5 s d ++ rule6 s hr ++ rule7 s hr) := by
  simp [evaluateRules, h1, h2]

/-- Witness for C8: pH 7.0 with chlorine level 4 makes rule 1 emit ON
and rule 2 emit OFF, and both appear in order in the output. -/
theorem evaluateRules_conflicting_chlorine_witness :
    evaluateRules snapConflict devCfg 12 =
      ⟨"chlorinePump", true⟩ :: ⟨"chlorinePump", false⟩ ::
        (rule3 snapConflict ++ rule4 snapConflict devCfg ++ rule5 snapConflict devCfg ++
          rule6 snapConflict 12 ++ rule7 snapConflict 12) :=
  evaluateRules_conflicting_chlorine snapConflict devCfg 12 true false
    (by norm_num [rule1, jlt, jgt, snapConflict, snapC5])
    (by norm_num [rule2, jlt, jgt, snapConflict, snapC5])

/-! ## Dispatcher lemmas -/

/-- The dispatch trace of a concatenated action list splits at the
junction, the suffix trace starting at the shifted position. -/
theorem controlActuatorsFrom_append (fail : ℕ → Bool) (as bs : List Action) :
    ∀ i, controlActuatorsFrom fail i (as ++ bs)
      = controlActuatorsFrom fail i as ++ controlActuatorsFrom fail (i + as.length) bs := by
  induction as with
  | nil => intro i; simp [controlActuatorsFrom]
  | cons a rest ih =>
    intro i
    have harith : i + 1 + rest.length = i + (rest.length + 1) := by omega
    simp [controlActuatorsFrom, ih (i + 1), harith]

/-- Every relay write in a dispatch trace comes from an action of the
list whose actuator id is registered, and carries that action's
command. -/
theorem mem_controlActuatorsFrom (fail : ℕ → Bool) (w : RelayWrite) :
    ∀ (i : ℕ) (actions : List Action), w ∈ controlActuatorsFrom fail i actions →
      ∃ a, a ∈ actions ∧ relayOf a.actuator = some w.relay ∧ w.value = a.command := by
  intro i actions
  induction actions generalizing i with
  | nil => intro h; simp [controlActuatorsFrom] at h
  | cons a rest ih =>
    intro hw
    rw [controlActuatorsFrom] at hw
    rcases List.mem_append.mp hw with hw | hw
    · unfold tryWrite at hw
      split at hw
      next r hrel =>
        split at hw
        · simp at hw
        · simp at hw
          subst hw
          exact ⟨a, List.mem_cons_self a rest, by simp [hrel], rfl⟩
      next hrel => simp at hw
    · obtain ⟨b, hb, h1, h2⟩ := ih (i + 1) hw
      exact ⟨b, List.mem_cons_of_mem a hb, h1, h2⟩

/-- The dispatch trace from position `i` on only depends on the failure
behaviour at positions `i` and later. -/
theorem controlActuatorsFrom_congr (fail fail2 : ℕ → Bool) (bs : List Action) :
    ∀ i, (∀ j, i ≤ j → fail j = fail2 j) →
      controlActuatorsFrom fail i bs = controlActuatorsFrom fail2 i bs := by
  induction bs with
  | nil => intro i _; rfl
  | cons a rest ih =>
    intro i h
    have h0 : fail i = fail2 i := h i (le_refl i)
    simp [controlActuatorsFrom, tryWrite, h0, ih (i + 1) (fun j hj => h j (by omega))]

/-- A failure function under which no write throws. -/
def failNone : ℕ → Bool := fun _ => false

/-- A failure function under which exactly the write at position 0
throws. -/
def failAt0 : ℕ → Bool := fun i => decide (i = 0)

/-! ## Claim theorems: dispatcher -/

/-- Claim C9: the dispatcher walks the action list in order (the trace
of a concatenation is the prefix trace followed by the suffix trace); a
single action with a registered actuator id produces exactly one relay
write carrying its boolean command unless that write throws; an
unregistered actuator id produces no write and no error; and the
writes of later actions do not depend on whether earlier writes threw. -/
theorem controlActuators_contract (fail fail2 : ℕ → Bool) (as bs : List Action)
    (a : Action) (r : Relay) :
    (controlActuators fail (as ++ bs)
       = controlActuators fail as ++ controlActuatorsFrom fail as.length bs)
  ∧ (relayOf a.actuator = some r →
       controlActuators fail [a] = if fail 0 then [] else [⟨r, a.command⟩])
  ∧ (relayOf a.actuator = none → controlActuators fail [a] = [])
  ∧ ((∀ j, as.length ≤ j → fail j = fail2 j) →
       controlActuatorsFrom fail as.length bs = controlActuatorsFrom fail2 as.length bs) := by
  refine ⟨?_, ?_, ?_, ?_⟩
  · have h := controlActuatorsFrom_append fail as bs 0
    simpa [controlActuators] using h
  · intro hrel
    simp [controlActuators, controlActuatorsFrom, tryWrite, hrel]
  · intro hrel
    simp [controlActuators, controlActuatorsFrom, tryWrite, hrel]
  · intro h
    exact controlActuatorsFrom_congr fail fail2 bs as.length h

/-- Witness for C9 at concrete inputs: a registered chlorinePump action
produces its single write, an unregistered poolCover action produces
none, and the suffix trace is unchanged when only the position-0
failure differs. -/
theorem controlActuators_contract_witness :
    (controlActuators failAt0 [⟨"chlorinePump", true⟩]
        = if failAt0 0 then [] else [⟨Relay.relayChlorinePump, true⟩])
  ∧ controlActuators failAt0 [⟨"poolCover", true⟩] = []
  ∧ controlActuatorsFrom failAt0 ([⟨"chlorinePump", true⟩] : List Action).length
        [⟨"filterMotor", false⟩]
        = controlActuatorsFrom failNone ([⟨"chlorinePump", true⟩] : List Action).length
        [⟨"filterMotor", false⟩] :=
  ⟨(controlActuators_contract failAt0 failNone [⟨"chlorinePump", true⟩] [⟨"filterMotor", false⟩]
      ⟨"chlorinePump", true⟩ Relay.relayChlorinePump).2.1 (by decide),
   (controlActuators_contract failAt0 failNone [⟨"chlorinePump", true⟩] [⟨"filterMotor", false⟩]
      ⟨"poolCover", true⟩ Relay.relayChlorinePump).2.2.1 (by decide),
   (controlActuators_contract failAt0 failNone [⟨"chlorinePump", true⟩] [⟨"filterMotor", false⟩]
      ⟨"chlorinePump", true⟩ Relay.relayChlorinePump).2.2.2 (fun j hj => by
        simp only [List.length_cons, List.length_nil] at hj
        simp [failAt0, failNone]
        omega)⟩

/-- The four actuator id strings that have a case in the dispatch
switch of `controlActuators`. -/
def registryNames : List String :=
  ["waterFillPump", "waterDrainPump", "chlorinePump", "filterMotor"]

/-- The five actuator id strings emitted by the rule engine that have
no case in the dispatch switch. -/
def unregisteredNames : List String :=
  ["poolFilter", "poolVacuum", "poolHeater", "poolCover", "ledLights"]

/-- Claim C10: the dispatch registry contains exactly the four relay
actuator ids; the five other actuator kinds of the enumeration map to
no relay; every relay write of a dispatch originates from an action
whose actuator id is one of the four registered names; and a list
containing only unregistered actuator ids produces no write at all. -/
theorem relay_registry_frame (name : String) (r : Relay) (fail : ℕ → Bool)
    (actions : List Action) (w : RelayWrite) :
    (relayOf name = some r → name ∈ registryNames)
  ∧ (name ∈ unregisteredNames → relayOf name = none)
  ∧ (w ∈ controlActuators fail actions →
      ∃ a, a ∈ actions ∧ relayOf a.actuator = some w.relay ∧ w.value = a.command ∧
        a.actuator ∈ registryNames)
  ∧ ((∀ a, a ∈ actions → relayOf a.actuator = none) → controlActuators fail actions = []) := by
  have hreg : ∀ (nm : String) (rel : Relay), relayOf nm = some rel → nm ∈ registryNames := by
    intro nm rel h
    unfold relayOf at h
    split_ifs at h with h1 h2 h3 h4 <;> simp [registryNames, *]
  refine ⟨hreg name r, ?_, ?_, ?_⟩
  · intro h
    simp only [unregisteredNames, List.mem_cons, List.not_mem_nil, or_false] at h
    rcases h with rfl | rfl | rfl | rfl | rfl <;> decide
  · intro hw
    have hw0 : w ∈ controlActuatorsFrom fail 0 actions := by
      simpa [controlActuators] using hw
    obtain ⟨a, ha, h1, h2⟩ := mem_controlActuatorsFrom fail w 0 actions hw0
    exact ⟨a, ha, h1, h2, hreg a.actuator w.relay h1⟩
  · intro h
    rcases hres : controlActuators fail actions with _ | ⟨w0, rest⟩
    · rfl
    · exfalso
      have hw : w0 ∈ controlActuatorsFrom fail 0 actions := by
        have : w0 ∈ controlActuators fail actions := by
          rw [hres]; exact List.mem_cons_self _ _
        simpa [controlActuators] using this
      obtain ⟨a, ha, h1, _⟩ := mem_controlActuatorsFrom fail w0 0 actions hw
      rw [h a ha] at h1
      exact Option.noConfusion h1

/-- Witness for C10 at concrete inputs: chlorinePump is registered,
poolCover is not, and a list of poolCover and ledLights actions
dispatches no write. -/
theorem relay_registry_frame_witness :
    "chlorinePump" ∈ registryNames
  ∧ relayOf "poolCover" = none
  ∧ controlActuators failNone [⟨"poolCover", true⟩, ⟨"ledLights", false⟩] = [] :=
  ⟨(relay_registry_frame "chlorinePump" Relay.relayChlorinePump failNone [] ⟨.relayChlorinePump, true⟩).1
      (by decide),
   (relay_registry_frame "poolCover" Relay.relayChlorinePump failNone [] ⟨.relayChlorinePump, true⟩).2.1
      (by decide),
   (relay_registry_frame "poolCover" Relay.relayChlorinePump failNone
      [⟨"poolCover", true⟩, ⟨"ledLights", false⟩] ⟨.relayChlorinePump, true⟩).2.2.2
      (by intro a ha; simp at ha; rcases ha with rfl | rfl <;> decide)⟩

/-! ## Synchronization client lemmas -/

/-- Under a server that answers 401 to every POST while the refresh
endpoint keeps handing out tokens, `sendToServer` makes one POST per
fuel unit and never returns. -/
theorem sendToServer_env401_spins (n : ℕ) :
    ∀ (s : Session) (k : Counts), (∃ t, s.accessToken = some t) →
      (sendToServer n env401 s k).result = none ∧
      (sendToServer n env401 s k).counts.posts = k.posts + n := by
  induction n with
  | zero => intro s k _; exact ⟨rfl, rfl⟩
  | succ n ih =>
    intro s k hex
    obtain ⟨t, ht⟩ := hex
    have hres := ih ⟨some "tokenB", s.refreshToken⟩ ⟨k.logins, k.refreshes + 1, k.posts + 1⟩
      ⟨"tokenB", rfl⟩
    have hpost : ∀ m, env401.post m = PostResult.err401 := fun _ => rfl
    have hrefresh : ∀ m, env401.refresh m = some "tokenB" := fun _ => rfl
    have h2 : (sendToServer n env401 ⟨some "tokenB", s.refreshToken⟩
        ⟨k.logins, k.refreshes + 1, k.posts + 1⟩).counts.posts = k.posts + 1 + n := hres.2
    simp only [sendToServer, ht, hpost, hrefresh, refreshAccessToken]
    exact ⟨hres.1, by rw [h2]; omega⟩

/-- A `sendToServer` call that starts with an access token in hand
never performs a login, whatever the server answers. -/
theorem sendToServer_logins_stable (n : ℕ) :
    ∀ (env : Env) (s : Session) (k : Counts) (t : String), s.accessToken = some t →
      (sendToServer n env s k).counts.logins = k.logins := by
  induction n with
  | zero => intro env s k t ht; rfl
  | succ n ih =>
    intro env s k t ht
    simp only [sendToServer, ht]
    cases hp : env.post k.posts with
    | ok d => simp [hp]
    | errOther => simp [hp]
    | err401 =>
      simp only [hp]
      unfold refreshAccessToken
      cases hr : env.refresh k.refreshes with
      | none => simp [hr]
      | some b =>
        simp only [hr]
        exact ih env _ _ b rfl

/-! ## Claim theorems: synchronization client -/

/-- Claim C1: the code violates the bounded-retry contract.  Against a
server that answers 401 to every sensor-data POST while the refresh
endpoint keeps succeeding, `sendToServer` refreshes and re-posts once
per 401 through unbounded recursion: with fuel `n` it makes `n` POSTs
to the same endpoint and is still running when the fuel ends, so no
bound of four attempts per send call holds. -/
theorem sendToServer_unbounded_401_retries (n : ℕ) :
    (sendToServer n env401 sess0 counts0).result = none ∧
    (sendToServer n env401 sess0 counts0).counts.posts = n :=
  ⟨(sendToServer_env401_spins n sess0 counts0 ⟨"tokenA", rfl⟩).1,
   by have h := (sendToServer_env401_spins n sess0 counts0 ⟨"tokenA", rfl⟩).2
      simpa [counts0] using h⟩

/-- Claim C2: a tick tries the primary endpoint first and, whenever the
primary `sendToServer` call returns null, runs the identical protocol
against the backup endpoint from the resulting session, the tick's
response being whatever the backup call produced; when both endpoints
return null the response is null and the remote dispatch is skipped;
whenever a response body arrives the dispatched list is exactly its
`actions` field. -/
theorem sendSensorData_failover (fuel : ℕ) (envP envB : Env) (s : Session) :
    ((sendToServer fuel envP s counts0).result = some none →
       (sendSensorData fuel envP envB s).response
         = (sendToServer fuel envB (sendToServer fuel envP s counts0).session counts0).result)
  ∧ ((sendToServer fuel envP s counts0).result = some none →
     (sendToServer fuel envB (sendToServer fuel envP s counts0).session counts0).result
         = some none →
       (sendSensorData fuel envP envB s).response = some none
     ∧ (sendSensorData fuel envP envB s).dispatched = none)
  ∧ (∀ d, (sendSensorData fuel envP envB s).response = some (some d) →
       (sendSensorData fuel envP envB s).dispatched = d.actions)
  ∧ (∀ d, (sendToServer fuel envP s counts0).result = some (some d) →
       (sendSensorData fuel envP envB s).response = some (some d)) := by
  refine ⟨?_, ?_, ?_, ?_⟩
  · intro h1
    simp only [sendSensorData, h1]
    rcases hb : (sendToServer fuel envB (sendToServer fuel envP s counts0).session
        counts0).result with _ | _ | d <;> simp [hb]
  · intro h1 h2
    simp [sendSensorData, h1, h2]
  · intro d hd
    rcases h1 : (sendToServer fuel envP s counts0).result with _ | _ | d1
    · simp only [sendSensorData, h1] at hd
      exact Option.noConfusion hd
    · simp only [sendSensorData, h1] at hd ⊢
      rcases hb : (sendToServer fuel envB (sendToServer fuel envP s counts0).session
          counts0).result with _ | _ | d2 <;> simp only [hb] at hd ⊢
      · exact absurd hd (by simp)
      · exact absurd hd (by simp)
      · obtain rfl : d2 = d := by simpa using hd
        rfl
    · simp only [sendSensorData, h1] at hd ⊢
      obtain rfl : d1 = d := by simpa using hd
      rfl
  · intro d h1
    simp only [sendSensorData, h1]

/-- Witness for C2 at concrete environments: with both endpoints
failing with non-401 errors the response is null and nothing is
dispatched; with a primary that accepts, the returned action list is
dispatched. -/
theorem sendSensorData_failover_witness :
    ((sendSensorData 1 envOther envOther sess0).response = some none
      ∧ (sendSensorData 1 envOther envOther sess0).dispatched = none)
  ∧ (sendSensorData 1 envOk envOther sess0).dispatched = some [⟨"chlorinePump", true⟩] :=
  ⟨(sendSensorData_failover 1 envOther envOther sess0).2.1 (by decide) (by decide),
   (sendSensorData_failover 1 envOk envOther sess0).2.2.1 ⟨some [⟨"chlorinePump", true⟩]⟩
     (by decide)⟩

/-- Claim C3 counterexample: with both tokens stored and a refresh
request that fails, the code clears only `accessToken`; the stored
`refreshToken` is still present afterwards, not cleared to null as the
claim states. -/
theorem refreshAccessToken_keeps_refreshToken :
    (refreshAccessToken envRefreshFail sess0 counts0).1.accessToken = none
  ∧ (refreshAccessToken envRefreshFail sess0 counts0).1.refreshToken = some "tokenR"
  ∧ (refreshAccessToken envRefreshFail sess0 counts0).1.refreshToken ≠ none := by
  refine ⟨rfl, rfl, ?_⟩
  decide

/-- Claim C3 amended: when a refresh request fails, `accessToken` is
set to null while `refreshToken` keeps its old value; because the
access token is now null, the next `sendToServer` call begins with a
full login (`fetchAuthToken` runs exactly once in it) rather than a
refresh. -/
theorem refreshAccessToken_failure_forces_login (env : Env) (s : Session) (k : Counts)
    (h : env.refresh k.refreshes = none) :
    (refreshAccessToken env s k).1.accessToken = none
  ∧ (refreshAccessToken env s k).1.refreshToken = s.refreshToken
  ∧ ∀ (n : ℕ) (env2 : Env),
      (sendToServer (n + 1) env2 (refreshAccessToken env s k).1 counts0).counts.logins = 1 := by
  have hs : refreshAccessToken env s k
      = ({ s with accessToken := none }, { k with refreshes := k.refreshes + 1 }) := by
    simp [refreshAccessToken, h]
  refine ⟨by rw [hs], by rw [hs], ?_⟩
  intro n env2
  rw [hs]
  simp only [sendToServer]
  unfold fetchAuthToken
  cases hl : env2.login counts0.logins with
  | none => simp [hl, counts0]
  | some pr =>
    obtain ⟨a, rt⟩ := pr
    simp only [hl, counts0]
    cases hp : env2.post 0 with
    | ok d => simp [hp]
    | errOther => simp [hp]
    | err401 =>
      simp only [hp]
      unfold refreshAccessToken
      cases hr : env2.refresh 0 with
      | none => simp [hr]
      | some b =>
        simp only [hr]
        exact sendToServer_logins_stable n env2 _ _ b rfl

/-- Witness for the amended C3 statement at a failing refresh endpoint
and a next call against an accepting server. -/
theorem refreshAccessToken_failure_forces_login_witness :
    (refreshAccessToken envRefreshFail sess0 counts0).1.accessToken = none
  ∧ (refreshAccessToken envRefreshFail sess0 counts0).1.refreshToken = sess0.refreshToken
  ∧ (sendToServer 1 envOk (refreshAccessToken envRefreshFail sess0 counts0).1
       counts0).counts.logins = 1 :=
  ⟨(refreshAccessToken_failure_forces_login envRefreshFail sess0 counts0 rfl).1,
   (refreshAccessToken_failure_forces_login envRefreshFail sess0 counts0 rfl).2.1,
   (refreshAccessToken_failure_forces_login envRefreshFail sess0 counts0 rfl).2.2 0 envOk⟩

end AquaGuard
